import Mathlib

/-!
Verification of the flight-simulator core in src/static/flight.js.

The module-level mutable variables of the script (gameStarted, crashed,
score, pitch, gamepadIndex, the plane mesh position and the rings array)
are gathered into a `State` record; each function of the script that
mutates them becomes a `State → State` function.  Rendering, camera and
DOM effects are outside the embedding.  Coordinates are real numbers;
the collision distance uses `Real.sqrt` exactly as the script uses
`Math.sqrt`.  External input (the gamepad object and its axis 3 reading)
is passed as an `Option ℝ` argument: `none` models a missing gamepad
object, `some a` models a present gamepad whose right-stick Y axis reads
`a`.
-/

namespace FlightSim

noncomputable section

/-- Position of the aircraft mesh (`plane.position` in the script). -/
structure Craft where
  x : ℝ
  y : ℝ
  z : ℝ

/-- One ring obstacle: its world position (`ring.position`) and the custom
`ring.checked` property the script attaches to mark a processed ring. -/
structure Ring where
  x : ℝ
  y : ℝ
  z : ℝ
  checked : Bool

/-- `const numRings = 10`. -/
def numRings : ℕ := 10

/-- `const ringSpacing = 150`. -/
def ringSpacing : ℝ := 150

/-- `const ringMajorRadius = 8`. -/
def ringMajorRadius : ℝ := 8

/-- `const ringTubeRadius = 0.7`. -/
def ringTubeRadius : ℝ := 0.7

/-- `const innerRadius = ringMajorRadius - ringTubeRadius` (safe zone). -/
def innerRadius : ℝ := ringMajorRadius - ringTubeRadius

/-- `const outerRadius = ringMajorRadius + ringTubeRadius` (collision zone). -/
def outerRadius : ℝ := ringMajorRadius + ringTubeRadius

/-- `const level1Altitude = 0`. -/
def level1Altitude : ℝ := 0

/-- `const level2Altitude = 6`. -/
def level2Altitude : ℝ := 6

/-- The ring construction loop (lines 61-73), parametrised by the constants
it reads: `count` iterations of `for (let i = 0; i < count; i++)` (a JS
count below zero runs the loop zero times, hence `count.toNat`), each ring
placed at `(0, altitude, -i * spacing + 300)` with alternating altitude and
`checked = false`.  `major` and `tube` are handed to `THREE.TorusGeometry`
for the mesh; the loop performs no validation on any of its inputs. -/
def generateRings (count : ℤ) (spacing major tube : ℝ) : List Ring :=
  (List.range count.toNat).map fun (i : ℕ) =>
    { x := 0
    , y := if i % 2 = 0 then level1Altitude else level2Altitude
    , z := -(i : ℝ) * spacing + 300
    , checked := false }

/-- `const speed = 100 / 60` (per-frame forward movement). -/
def speed : ℝ := 100 / 60

/-- The script's module-level mutable state. -/
structure State where
  gameStarted : Bool
  crashed : Bool
  score : ℕ
  pitch : ℝ
  gamepadIndex : Option ℕ
  plane : Craft
  rings : List Ring

/-- The state after module initialisation: `plane.position.set(0, 0, 500)`,
`gameStarted = false`, `crashed = false`, `score = 0`, `pitch = 0`,
`gamepadIndex = null`, and the generated rings. -/
def initState : State :=
  { gameStarted := false
  , crashed := false
  , score := 0
  , pitch := 0
  , gamepadIndex := none
  , plane := { x := 0, y := 0, z := 500 }
  , rings := generateRings (numRings : ℤ) ringSpacing ringMajorRadius ringTubeRadius }

/-- `state == Idle`: the game has not started and has not crashed. -/
def isIdle (s : State) : Prop := s.gameStarted = false ∧ s.crashed = false

/-- `state == Running`: the game has started and has not crashed. -/
def isRunning (s : State) : Prop := s.gameStarted = true ∧ s.crashed = false

/-- `state == Crashed`. -/
def isCrashed (s : State) : Prop := s.crashed = true

/-- `updateGamepadInput()` (lines 99-105): returns unchanged when
`gamepadIndex === null || crashed`; otherwise, if the gamepad object is
absent (`!gamepad`) returns unchanged, else sets
`pitch = gamepad.axes[3] * 0.2`. -/
def updateGamepadInput (axis : Option ℝ) (s : State) : State :=
  if s.gamepadIndex = none ∨ s.crashed = true then s
  else
    match axis with
    | none => s
    | some a => { s with pitch := a * 0.2 }

/-- The planar (XY) distance computed in `checkRings` (lines 129-131):
`Math.sqrt(dx * dx + dy * dy)`. -/
def ringDistance (p : Craft) (r : Ring) : ℝ :=
  Real.sqrt ((p.x - r.x) * (p.x - r.x) + (p.y - r.y) * (p.y - r.y))

/-- The per-ring outcome decided by the branch structure of `checkRings`
(lines 134-146): `distance < innerRadius` scores, else
`distance >= innerRadius && distance <= outerRadius` crashes, else the
ring is simply missed. -/
inductive Outcome
  | Scored
  | Crashed
  | Missed
deriving DecidableEq

/-- The classification the branches of `checkRings` apply to one ring. -/
def ringOutcome (p : Craft) (r : Ring) : Outcome :=
  let distance := ringDistance p r
  if distance < innerRadius then .Scored
  else if innerRadius ≤ distance ∧ distance ≤ outerRadius then .Crashed
  else .Missed

/-- The loop body of `checkRings` (lines 124-148) over the rings array:
given the plane position and current score, walks the list in index order;
a ring with `!ring.checked && plane.position.z < ring.position.z` is
marked `checked = true`, then the distance is classified: score + 1 and
continue, or crash and return early (the Bool result: `crashed` was set),
or miss and continue. -/
def checkRingsAux : Craft → ℕ → List Ring → List Ring × ℕ × Bool
  | _, score, [] => ([], score, false)
  | p, score, r :: rest =>
    if r.checked = false ∧ p.z < r.z then
      let distance := ringDistance p r
      if distance < innerRadius then
        let out := checkRingsAux p (score + 1) rest
        ({ r with checked := true } :: out.1, out.2)
      else if innerRadius ≤ distance ∧ distance ≤ outerRadius then
        ({ r with checked := true } :: rest, score, true)
      else
        let out := checkRingsAux p score rest
        ({ r with checked := true } :: out.1, out.2)
    else
      let out := checkRingsAux p score rest
      (r :: out.1, out.2)

/-- `checkRings()` as a state transformer: the loop updates the rings, the
score, and sets `crashed = true` on an early return. -/
def checkRings (s : State) : State :=
  let out := checkRingsAux s.plane s.score s.rings
  { s with rings := out.1, score := out.2.1, crashed := s.crashed || out.2.2 }

/-- One call of `animate()` (lines 154-167) without the re-scheduling and
rendering: returns unchanged when `!gameStarted || crashed`; otherwise
samples the gamepad, moves the plane (`z -= speed; y -= pitch`) and runs
`checkRings`. -/
def animate (axis : Option ℝ) (s : State) : State :=
  if s.gameStarted = false ∨ s.crashed = true then s
  else
    let s1 := updateGamepadInput axis s
    let s2 := { s1 with plane := { s1.plane with z := s1.plane.z - speed } }
    let s3 := { s2 with plane := { s2.plane with y := s2.plane.y - s2.pitch } }
    checkRings s3

/-- `startGame()` (lines 172-178): when `!gameStarted`, sets
`gameStarted = true` and calls `animate()`, which immediately runs one
frame; otherwise does nothing. -/
def startGame (axis : Option ℝ) (s : State) : State :=
  if s.gameStarted = false then animate axis { s with gameStarted := true } else s

/-- `restartGame()` (lines 180-193): resets the plane to `(0, 0, 500)`,
clears `crashed`, `gameStarted` and `score`, and sets every ring's
`checked` to false.  `pitch` and `gamepadIndex` are not touched. -/
def restartGame (s : State) : State :=
  { s with
    plane := { x := 0, y := 0, z := 500 }
  , crashed := false
  , gameStarted := false
  , score := 0
  , rings := s.rings.map fun r => { r with checked := false } }

/-- The `gamepadconnected` handler (lines 85-90): records the index, then
`if (!gameStarted && !crashed) startGame()`. -/
def gamepadConnected (i : ℕ) (axis : Option ℝ) (s : State) : State :=
  let s1 := { s with gamepadIndex := some i }
  if s1.gameStarted = false ∧ s1.crashed = false then startGame axis s1 else s1

/-- The `gamepaddisconnected` handler (lines 91-94): `gamepadIndex = null`. -/
def gamepadDisconnected (s : State) : State :=
  { s with gamepadIndex := none }

/-- The `keydown` handler for a non-space key (lines 202-205):
`if (!gameStarted && !crashed) startGame()`. -/
def keydownStart (axis : Option ℝ) (s : State) : State :=
  if s.gameStarted = false ∧ s.crashed = false then startGame axis s else s

/-- The states the script can reach: the initial state, closed under one
animation frame, the two gamepad handlers, and the two keydown branches
(space restarts, any other key may start). -/
inductive Reachable : State → Prop
  | init : Reachable initState
  | frame {s : State} (axis : Option ℝ) : Reachable s → Reachable (animate axis s)
  | connect {s : State} (i : ℕ) (axis : Option ℝ) :
      Reachable s → Reachable (gamepadConnected i axis s)
  | disconnect {s : State} : Reachable s → Reachable (gamepadDisconnected s)
  | keySpace {s : State} : Reachable s → Reachable (restartGame s)
  | keyOther {s : State} (axis : Option ℝ) : Reachable s → Reachable (keydownStart axis s)

/-- The count of rings a pass of the `checkRings` loop scores: the rings
that are unchecked, crossed this frame, and at distance below
`innerRadius`. -/
def scoredCount (p : Craft) : List Ring → ℕ
  | [] => 0
  | r :: rest =>
    (if r.checked = false ∧ p.z < r.z ∧ ringDistance p r < innerRadius then 1 else 0)
      + scoredCount p rest

/-- How one pass of the `checkRings` loop relates an input ring to the
output ring at the same index: the geometry is untouched and the
`checked` flag can only go from false to true. -/
def RingStep (a b : Ring) : Prop :=
  b.x = a.x ∧ b.y = a.y ∧ b.z = a.z ∧ (a.checked = true → b.checked = true)

/-- In every state the script reaches, a crash implies the game had
started: `crashed = true` is only ever set inside the running frame. -/
def crashImpliesStarted (s : State) : Prop := s.crashed = true → s.gameStarted = true

/-- The lateral coordinate is zero everywhere: the plane and every ring
sit on the x = 0 plane. -/
def zeroX (s : State) : Prop := s.plane.x = 0 ∧ ∀ r ∈ s.rings, r.x = 0

/-- The plane position after the two motion statements of a running
frame (`z -= speed; y -= pitch`, with the pitch freshly sampled). -/
def advancedPlane (axis : Option ℝ) (s : State) : Craft :=
  { x := s.plane.x
  , y := s.plane.y - (updateGamepadInput axis s).pitch
  , z := s.plane.z - speed }

/-- A running state with no rings, no connected gamepad, and a stale
pitch value left over from before the gamepad disconnected. -/
def emptyRunState : State :=
  { gameStarted := true
  , crashed := false
  , score := 0
  , pitch := 1 / 5
  , gamepadIndex := none
  , plane := { x := 0, y := 0, z := 500 }
  , rings := [] }

/-- A crashed state (a crash always happens while the game is started). -/
def crashedRunState : State :=
  { gameStarted := true
  , crashed := true
  , score := 3
  , pitch := 0
  , gamepadIndex := none
  , plane := { x := 0, y := 0, z := 500 }
  , rings := [] }

/-- A craft position past both sample rings. -/
def sampleCraft : Craft := { x := 0, y := 0, z := 100 }

/-- An unchecked ring centred on the craft's track. -/
def sampleRing : Ring := { x := 0, y := 0, z := 300, checked := false }

/-- An unchecked ring at the second altitude, one spacing further on. -/
def sampleRing2 : Ring := { x := 0, y := 6, z := 150, checked := false }

/-- A craft position at planar distance exactly `innerRadius` from
`sampleRing` (boundary of the safe zone). -/
def boundaryCraft : Craft := { x := 0, y := innerRadius, z := 100 }

end

lemma RingStep.refl (a : Ring) : RingStep a a :=
  ⟨Eq.refl a.x, Eq.refl a.y, Eq.refl a.z, fun h => h⟩

lemma updateGamepadInput_plane (axis : Option ℝ) (s : State) :
    (updateGamepadInput axis s).plane = s.plane := by
  unfold updateGamepadInput
  split
  · rfl
  · cases axis <;> rfl

lemma updateGamepadInput_rings (axis : Option ℝ) (s : State) :
    (updateGamepadInput axis s).rings = s.rings := by
  unfold updateGamepadInput
  split
  · rfl
  · cases axis <;> rfl

lemma updateGamepadInput_score (axis : Option ℝ) (s : State) :
    (updateGamepadInput axis s).score = s.score := by
  unfold updateGamepadInput
  split
  · rfl
  · cases axis <;> rfl

lemma updateGamepadInput_gameStarted (axis : Option ℝ) (s : State) :
    (updateGamepadInput axis s).gameStarted = s.gameStarted := by
  unfold updateGamepadInput
  split
  · rfl
  · cases axis <;> rfl

lemma updateGamepadInput_crashed (axis : Option ℝ) (s : State) :
    (updateGamepadInput axis s).crashed = s.crashed := by
  unfold updateGamepadInput
  split
  · rfl
  · cases axis <;> rfl

lemma updateGamepadInput_gamepadIndex (axis : Option ℝ) (s : State) :
    (updateGamepadInput axis s).gamepadIndex = s.gamepadIndex := by
  unfold updateGamepadInput
  split
  · rfl
  · cases axis <;> rfl

lemma updateGamepadInput_of_none (axis : Option ℝ) (s : State)
    (h : s.gamepadIndex = none) : updateGamepadInput axis s = s := by
  unfold updateGamepadInput
  rw [if_pos (Or.inl h)]

lemma checkRings_plane (s : State) : (checkRings s).plane = s.plane := rfl

lemma checkRings_pitch (s : State) : (checkRings s).pitch = s.pitch := rfl

lemma checkRings_gameStarted (s : State) :
    (checkRings s).gameStarted = s.gameStarted := rfl

lemma checkRings_gamepadIndex (s : State) :
    (checkRings s).gamepadIndex = s.gamepadIndex := rfl

lemma checkRings_rings (s : State) :
    (checkRings s).rings = (checkRingsAux s.plane s.score s.rings).1 := rfl

lemma checkRings_score (s : State) :
    (checkRings s).score = (checkRingsAux s.plane s.score s.rings).2.1 := rfl

lemma checkRings_crashed (s : State) :
    (checkRings s).crashed = (s.crashed || (checkRingsAux s.plane s.score s.rings).2.2) := rfl

lemma innerRadius_lt_outerRadius : innerRadius < outerRadius := by
  unfold innerRadius outerRadius ringMajorRadius ringTubeRadius
  norm_num

lemma checkRingsAux_forall₂ (p : Craft) (sc : ℕ) (rs : List Ring) :
    List.Forall₂ RingStep rs (checkRingsAux p sc rs).1 := by
  induction rs generalizing sc with
  | nil => exact List.Forall₂.nil
  | cons r rest ih =>
    unfold checkRingsAux
    by_cases h1 : r.checked = false ∧ p.z < r.z
    · rw [if_pos h1]
      by_cases h2 : ringDistance p r < innerRadius
      · simp only [if_pos h2]
        exact List.Forall₂.cons ⟨rfl, rfl, rfl, fun _ => rfl⟩ (ih (sc + 1))
      · rw [if_neg h2]
        by_cases h3 : innerRadius ≤ ringDistance p r ∧ ringDistance p r ≤ outerRadius
        · simp only [if_pos h3]
          exact List.Forall₂.cons ⟨rfl, rfl, rfl, fun _ => rfl⟩
            ((List.forall₂_same).2 fun a _ => RingStep.refl a)
        · simp only [if_neg h3]
          exact List.Forall₂.cons ⟨rfl, rfl, rfl, fun _ => rfl⟩ (ih sc)
    · rw [if_neg h1]
      exact List.Forall₂.cons (RingStep.refl r) (ih sc)

lemma checkRingsAux_length (p : Craft) (sc : ℕ) (rs : List Ring) :
    (checkRingsAux p sc rs).1.length = rs.length :=
  (checkRingsAux_forall₂ p sc rs).length_eq.symm

lemma checkRingsAux_score_mono (p : Craft) (sc : ℕ) (rs : List Ring) :
    sc ≤ (checkRingsAux p sc rs).2.1 := by
  induction rs generalizing sc with
  | nil => exact le_refl sc
  | cons r rest ih =>
    unfold checkRingsAux
    by_cases h1 : r.checked = false ∧ p.z < r.z
    · rw [if_pos h1]
      by_cases h2 : ringDistance p r < innerRadius
      · simp only [if_pos h2]
        exact le_trans (Nat.le_succ sc) (ih (sc + 1))
      · rw [if_neg h2]
        by_cases h3 : innerRadius ≤ ringDistance p r ∧ ringDistance p r ≤ outerRadius
        · simp only [if_pos h3]
          exact le_refl sc
        · simp only [if_neg h3]
          exact ih sc
    · rw [if_neg h1]
      exact ih sc

lemma animate_of_not_running (axis : Option ℝ) (s : State) (h : ¬ isRunning s) :
    animate axis s = s := by
  unfold isRunning at h
  unfold animate
  cases hg : s.gameStarted with
  | false => rw [if_pos (Or.inl rfl)]
  | true =>
    cases hc : s.crashed with
    | true => rw [if_pos (Or.inr rfl)]
    | false => exact absurd ⟨hg, hc⟩ h

lemma isRunning_not_guard {s : State} (h : isRunning s) :
    ¬ (s.gameStarted = false ∨ s.crashed = true) := by
  rintro (e | e)
  · rw [h.1] at e
    exact Bool.noConfusion e
  · rw [h.2] at e
    exact Bool.noConfusion e

lemma animate_of_running (axis : Option ℝ) (s : State) (h : isRunning s) :
    animate axis s = checkRings
      { updateGamepadInput axis s with plane :=
          { x := s.plane.x
          , y := s.plane.y - (updateGamepadInput axis s).pitch
          , z := s.plane.z - speed } } := by
  unfold animate
  rw [if_neg (isRunning_not_guard h)]
  simp only [updateGamepadInput_plane]

lemma animate_gameStarted (axis : Option ℝ) (s : State) :
    (animate axis s).gameStarted = s.gameStarted := by
  by_cases h : isRunning s
  · rw [animate_of_running axis s h, checkRings_gameStarted]
    exact updateGamepadInput_gameStarted axis s
  · rw [animate_of_not_running axis s h]

lemma animate_gamepadIndex (axis : Option ℝ) (s : State) :
    (animate axis s).gamepadIndex = s.gamepadIndex := by
  by_cases h : isRunning s
  · rw [animate_of_running axis s h, checkRings_gamepadIndex]
    exact updateGamepadInput_gamepadIndex axis s
  · rw [animate_of_not_running axis s h]

lemma animate_crashImpliesStarted (axis : Option ℝ) (s : State)
    (h : crashImpliesStarted s) : crashImpliesStarted (animate axis s) := by
  by_cases hr : isRunning s
  · intro _
    rw [animate_gameStarted]
    exact hr.1
  · rw [animate_of_not_running axis s hr]
    exact h

lemma startGame_crashImpliesStarted (axis : Option ℝ) (s : State)
    (h : crashImpliesStarted s) : crashImpliesStarted (startGame axis s) := by
  unfold startGame
  split
  · intro _
    rw [animate_gameStarted]
  · exact h

lemma restartGame_crashImpliesStarted (s : State) :
    crashImpliesStarted (restartGame s) := by
  intro e
  exact absurd e (by simp [restartGame])

lemma reachable_crashImpliesStarted {s : State} (h : Reachable s) :
    crashImpliesStarted s := by
  induction h with
  | init => exact fun e => Bool.noConfusion e
  | frame axis _ ih => exact animate_crashImpliesStarted _ _ ih
  | connect i axis _ ih =>
    simp only [gamepadConnected]
    split
    · exact startGame_crashImpliesStarted _ _ ih
    · exact ih
  | disconnect _ ih => exact ih
  | keySpace _ _ => exact restartGame_crashImpliesStarted _
  | keyOther axis _ ih =>
    unfold keydownStart
    split
    · exact startGame_crashImpliesStarted _ _ ih
    · exact ih

lemma checkRingsAux_mem (p : Craft) (sc : ℕ) (rs : List Ring) :
    ∀ b ∈ (checkRingsAux p sc rs).1, ∃ a, a ∈ rs ∧ b.x = a.x ∧ b.y = a.y ∧ b.z = a.z := by
  intro b hb
  obtain ⟨n, hn⟩ := List.mem_iff_get.1 hb
  obtain ⟨hlen, hget⟩ := List.forall₂_iff_get.1 (checkRingsAux_forall₂ p sc rs)
  have hi : (n : ℕ) < rs.length := by rw [hlen]; exact n.2
  have hr := hget (n : ℕ) hi n.2
  rw [hn] at hr
  exact ⟨rs.get ⟨(n : ℕ), hi⟩, List.get_mem _ _ _, hr.1, hr.2.1, hr.2.2.1⟩

lemma animate_zeroX (axis : Option ℝ) (s : State) (h : zeroX s) :
    zeroX (animate axis s) := by
  by_cases hr : isRunning s
  · rw [animate_of_running axis s hr]
    constructor
    · rw [checkRings_plane]
      exact h.1
    · rw [checkRings_rings]
      intro b hb
      obtain ⟨a, ha, hx, _, _⟩ := checkRingsAux_mem _ _ _ b hb
      rw [hx]
      refine h.2 a ?_
      simpa [updateGamepadInput_rings] using ha
  · rw [animate_of_not_running axis s hr]
    exact h

lemma startGame_zeroX (axis : Option ℝ) (s : State) (h : zeroX s) :
    zeroX (startGame axis s) := by
  unfold startGame
  split
  · exact animate_zeroX _ _ h
  · exact h

lemma restartGame_zeroX (s : State) (h : zeroX s) : zeroX (restartGame s) := by
  constructor
  · rfl
  · intro b hb
    simp only [restartGame, List.mem_map] at hb
    obtain ⟨a, ha, rfl⟩ := hb
    exact h.2 a ha

lemma reachable_zeroX {s : State} (h : Reachable s) : zeroX s := by
  induction h with
  | init =>
    constructor
    · rfl
    · intro b hb
      simp only [initState, generateRings, List.mem_map] at hb
      obtain ⟨i, _, rfl⟩ := hb
      rfl
  | frame axis _ ih => exact animate_zeroX _ _ ih
  | connect i axis _ ih =>
    simp only [gamepadConnected]
    split
    · exact startGame_zeroX _ _ ih
    · exact ih
  | disconnect _ ih => exact ih
  | keySpace _ ih => exact restartGame_zeroX _ ih
  | keyOther axis _ ih =>
    unfold keydownStart
    split
    · exact startGame_zeroX _ _ ih
    · exact ih

lemma ringDistance_of_zeroX {p : Craft} {r : Ring} (hp : p.x = 0) (hr : r.x = 0) :
    ringDistance p r = |p.y - r.y| := by
  unfold ringDistance
  rw [hp, hr]
  norm_num [Real.sqrt_mul_self_eq_abs]

lemma checkRingsAux_score_of_noCrash (p : Craft) (sc : ℕ) (rs : List Ring)
    (h : (checkRingsAux p sc rs).2.2 = false) :
    (checkRingsAux p sc rs).2.1 = sc + scoredCount p rs := by
  induction rs generalizing sc with
  | nil => rfl
  | cons r rest ih =>
    unfold checkRingsAux at h ⊢
    unfold scoredCount
    by_cases h1 : r.checked = false ∧ p.z < r.z
    · rw [if_pos h1] at h ⊢
      by_cases h2 : ringDistance p r < innerRadius
      · simp only [if_pos h2] at h ⊢
        rw [if_pos ⟨h1.1, h1.2, h2⟩]
        rw [ih (sc + 1) h]
        omega
      · rw [if_neg h2] at h ⊢
        by_cases h3 : innerRadius ≤ ringDistance p r ∧ ringDistance p r ≤ outerRadius
        · simp only [if_pos h3] at h
          exact Bool.noConfusion h
        · simp only [if_neg h3] at h ⊢
          rw [if_neg fun hc => h2 hc.2.2]
          rw [ih sc h]
          omega
    · rw [if_neg h1] at h ⊢
      rw [if_neg fun hc => h1 ⟨hc.1, hc.2.1⟩]
      rw [ih sc h]
      omega

lemma innerRadius_pos : (0 : ℝ) < innerRadius := by
  unfold innerRadius ringMajorRadius ringTubeRadius
  norm_num

/-- C1: for every craft position and every ring, with planar distance
d = sqrt((craft.x - ring.x)^2 + (craft.y - ring.y)^2), the evaluation
yields Scored exactly when d < innerRadius, Crashed exactly when
innerRadius <= d <= outerRadius, and Missed exactly when d > outerRadius
(innerRadius = majorRadius - tubeRadius, outerRadius = majorRadius +
tubeRadius); the three outcomes are exhaustive and mutually exclusive,
and boundary equality lands in the Crashed case, so Scored requires
strict inequality. -/
theorem C1_ring_outcome_classification (p : Craft) (r : Ring) :
    (ringOutcome p r = Outcome.Scored ↔ ringDistance p r < innerRadius) ∧
    (ringOutcome p r = Outcome.Crashed ↔
      innerRadius ≤ ringDistance p r ∧ ringDistance p r ≤ outerRadius) ∧
    (ringOutcome p r = Outcome.Missed ↔ outerRadius < ringDistance p r) := by
  unfold ringOutcome
  by_cases h1 : ringDistance p r < innerRadius
  · simp only [if_pos h1]
    refine ⟨⟨fun _ => h1, fun _ => trivial⟩, ?_, ?_⟩
    · constructor
      · intro e
        exact Outcome.noConfusion e
      · intro hc
        exact absurd h1 (not_lt.2 hc.1)
    · constructor
      · intro e
        exact Outcome.noConfusion e
      · intro hm
        exact absurd (lt_trans h1 innerRadius_lt_outerRadius) (not_lt.2 (le_of_lt hm))
  · rw [if_neg h1]
    by_cases h2 : innerRadius ≤ ringDistance p r ∧ ringDistance p r ≤ outerRadius
    · simp only [if_pos h2]
      refine ⟨?_, ⟨fun _ => h2, fun _ => trivial⟩, ?_⟩
      · constructor
        · intro e
          exact Outcome.noConfusion e
        · intro hs
          exact absurd hs h1
      · constructor
        · intro e
          exact Outcome.noConfusion e
        · intro hm
          exact absurd h2.2 (not_le.2 hm)
    · simp only [if_neg h2]
      have hd : outerRadius < ringDistance p r := by
        push_neg at h1 h2
        exact h2 h1
      refine ⟨?_, ?_, ⟨fun _ => hd, fun _ => trivial⟩⟩
      · constructor
        · intro e
          exact Outcome.noConfusion e
        · intro hs
          exact absurd hs h1
      · constructor
        · intro e
          exact Outcome.noConfusion e
        · intro hc
          exact absurd hc h2

/-- C2: calling restart from any state leaves the system Idle with score
0, every ring's checked flag false, and the craft at the fixed initial
start position (0, 0, 500). -/
theorem C2_restart_resets (s : State) :
    isIdle (restartGame s) ∧
    (restartGame s).score = 0 ∧
    (∀ r ∈ (restartGame s).rings, r.checked = false) ∧
    (restartGame s).plane = initState.plane := by
  refine ⟨⟨rfl, rfl⟩, rfl, ?_, rfl⟩
  intro r hr
  simp only [restartGame, List.mem_map] at hr
  obtain ⟨a, _, rfl⟩ := hr
  rfl

/-- C3 as claimed is false: with no input device present (gamepadIndex
null) but a stale pitch of 1/5 left from before a disconnect, the next
tick moves the craft down by 1/5, not by 0 — the early return of
updateGamepadInput keeps the old pitch rather than zeroing it. -/
theorem C3_stale_pitch_counterexample :
    (animate none emptyRunState).plane.y = emptyRunState.plane.y - 1 / 5 ∧
    ((1 : ℝ) / 5) ≠ 0 ∧
    (updateGamepadInput none emptyRunState).pitch = 1 / 5 := by
  refine ⟨?_, by norm_num, rfl⟩
  have hrun : isRunning emptyRunState := ⟨rfl, rfl⟩
  rw [animate_of_running none emptyRunState hrun, checkRings_plane,
    updateGamepadInput_of_none none emptyRunState rfl]
  rfl

/-- C3 amended: when no input device is present, updateGamepadInput
returns without touching pitch, so the next tick uses the pitch value
persisted from earlier frames (the module variable), which is 0 only
because it was 0 before — in particular the initial pitch is 0, so a run
during which no device was ever connected flies with pitch 0. -/
theorem C3_no_device_keeps_pitch (axis : Option ℝ) (s : State)
    (h : s.gamepadIndex = none) :
    updateGamepadInput axis s = s ∧ initState.pitch = 0 :=
  ⟨updateGamepadInput_of_none axis s h, rfl⟩

/-- Witness for C3_no_device_keeps_pitch at the concrete stale state. -/
theorem C3_no_device_keeps_pitch_witness :
    emptyRunState.gamepadIndex = none ∧
    updateGamepadInput none emptyRunState = emptyRunState :=
  ⟨rfl, (C3_no_device_keeps_pitch none emptyRunState rfl).1⟩

/-- C4 as claimed is false: the generation loop performs no validation
and rejects nothing — with tubeRadius = 2 >= majorRadius = 1 and a
negative spacing it still produces a ring. -/
theorem C4_no_failfast_counterexample :
    (1 : ℝ) ≤ 2 ∧ (generateRings 1 (-5) 1 2).length = 1 := by
  constructor
  · norm_num
  · rfl

lemma animate_running_rings (axis : Option ℝ) (s : State) (hr : isRunning s) :
    (animate axis s).rings =
      (checkRingsAux (advancedPlane axis s) s.score s.rings).1 := by
  rw [animate_of_running axis s hr, checkRings_rings]
  dsimp only
  rw [updateGamepadInput_score, updateGamepadInput_rings]
  rfl

lemma animate_running_score (axis : Option ℝ) (s : State) (hr : isRunning s) :
    (animate axis s).score =
      (checkRingsAux (advancedPlane axis s) s.score s.rings).2.1 := by
  rw [animate_of_running axis s hr, checkRings_score]
  dsimp only
  rw [updateGamepadInput_score, updateGamepadInput_rings]
  rfl

lemma animate_running_crashed (axis : Option ℝ) (s : State) (hr : isRunning s) :
    (animate axis s).crashed =
      (checkRingsAux (advancedPlane axis s) s.score s.rings).2.2 := by
  rw [animate_of_running axis s hr, checkRings_crashed]
  dsimp only
  rw [updateGamepadInput_score, updateGamepadInput_rings, updateGamepadInput_crashed,
    hr.2, Bool.false_or]
  rfl

/-- C5 helper: the lateral coordinate of the plane survives a frame in
either branch of animate. -/
lemma animate_plane_x (axis : Option ℝ) (s : State) :
    (animate axis s).plane.x = s.plane.x := by
  by_cases hr : isRunning s
  · rw [animate_of_running axis s hr, checkRings_plane]
  · rw [animate_of_not_running axis s hr]

/-- C5: a running-state tick decreases the forward coordinate z by
exactly the constant speed and the vertical coordinate y by exactly the
pitch value sampled for this frame (positive pitch moves the craft
down); the lateral coordinate x is never modified by any core
operation (restart writes x = 0, which in every reachable state equals
the previous value). -/
theorem C5_advance_motion (axis : Option ℝ) (s : State) :
    (isRunning s →
      (animate axis s).plane.z = s.plane.z - speed ∧
      (animate axis s).plane.y = s.plane.y - (updateGamepadInput axis s).pitch) ∧
    (animate axis s).plane.x = s.plane.x ∧
    (startGame axis s).plane.x = s.plane.x ∧
    (updateGamepadInput axis s).plane.x = s.plane.x ∧
    (gamepadDisconnected s).plane.x = s.plane.x ∧
    (s.plane.x = 0 → (restartGame s).plane.x = s.plane.x) := by
  refine ⟨?_, animate_plane_x axis s, ?_, ?_, rfl, ?_⟩
  · intro hr
    rw [animate_of_running axis s hr, checkRings_plane]
    exact ⟨rfl, rfl⟩
  · unfold startGame
    split
    · exact animate_plane_x axis _
    · rfl
  · rw [updateGamepadInput_plane]
  · intro h0
    rw [h0]
    rfl

/-- Witness for C5_advance_motion at a concrete running state. -/
theorem C5_advance_motion_witness :
    isRunning emptyRunState ∧
    (animate none emptyRunState).plane.z = emptyRunState.plane.z - speed ∧
    (animate none emptyRunState).plane.y =
      emptyRunState.plane.y - (updateGamepadInput none emptyRunState).pitch :=
  ⟨⟨rfl, rfl⟩, ((C5_advance_motion none emptyRunState).1 ⟨rfl, rfl⟩).1,
    ((C5_advance_motion none emptyRunState).1 ⟨rfl, rfl⟩).2⟩

/-- C7: out-of-contract lifecycle calls are no-ops — a tick (animate)
outside the Running state changes nothing, and startGame from Running,
or from Crashed in any reachable state (where a crash implies the game
was started), changes nothing. -/
theorem C7_out_of_contract_noops (axis : Option ℝ) (s : State) :
    (¬ isRunning s → animate axis s = s) ∧
    (isRunning s → startGame axis s = s) ∧
    (isCrashed s → Reachable s → startGame axis s = s) := by
  refine ⟨animate_of_not_running axis s, ?_, ?_⟩
  · intro hr
    unfold startGame
    rw [if_neg (fun e => Bool.noConfusion (hr.1.symm.trans e))]
  · intro hc hreach
    have hg : s.gameStarted = true := reachable_crashImpliesStarted hreach hc
    unfold startGame
    rw [if_neg (fun e => Bool.noConfusion (hg.symm.trans e))]

/-- Witness for C7_out_of_contract_noops: a tick in the initial (idle)
state is a no-op, and startGame in a running state is a no-op. -/
theorem C7_out_of_contract_noops_witness :
    ¬ isRunning initState ∧ animate none initState = initState ∧
    isRunning emptyRunState ∧ startGame none emptyRunState = emptyRunState :=
  ⟨fun h => Bool.noConfusion h.1,
    (C7_out_of_contract_noops none initState).1 (fun h => Bool.noConfusion h.1),
    ⟨rfl, rfl⟩,
    (C7_out_of_contract_noops none emptyRunState).2.1 ⟨rfl, rfl⟩⟩

/-- C4 amended: ring generation is total and unconditional — for every
count, spacing, majorRadius and tubeRadius (malformed combinations
included) it produces max(count, 0) rings, all unchecked, with no
failure channel; separately, the repository's fixed constants satisfy
0 < tubeRadius < majorRadius, so the rings actually generated are
valid. -/
theorem C4_generation_total (count : ℤ) (spacing major tube : ℝ) :
    (generateRings count spacing major tube).length = count.toNat ∧
    (∀ r ∈ generateRings count spacing major tube, r.checked = false) ∧
    0 < ringTubeRadius ∧ ringTubeRadius < ringMajorRadius := by
  refine ⟨?_, ?_, ?_, ?_⟩
  · exact (List.length_map _ _).trans (List.length_range _)
  · intro r hr
    simp only [generateRings, List.mem_map] at hr
    obtain ⟨i, _, rfl⟩ := hr
    rfl
  · unfold ringTubeRadius
    norm_num
  · unfold ringTubeRadius ringMajorRadius
    norm_num

/-- C6: a ring's checked flag is set unconditionally the moment the ring
is evaluated (whatever the outcome), never goes back from true to false
during a frame, and is reset only by restart. -/
theorem C6_checked_once (axis : Option ℝ) (s : State) :
    List.Forall₂ (fun a b => a.checked = true → b.checked = true)
      s.rings (animate axis s).rings ∧
    (∀ r ∈ (restartGame s).rings, r.checked = false) ∧
    ∀ (p : Craft) (sc : ℕ) (r : Ring) (rest : List Ring),
      r.checked = false → p.z < r.z →
      ∃ rest2, (checkRingsAux p sc (r :: rest)).1 = { r with checked := true } :: rest2 := by
  refine ⟨?_, ?_, ?_⟩
  · by_cases hr : isRunning s
    · rw [animate_running_rings axis s hr]
      exact (checkRingsAux_forall₂ _ _ _).imp fun _ _ hab => hab.2.2.2
    · rw [animate_of_not_running axis s hr]
      exact List.forall₂_same.2 fun a _ h => h
  · intro r hrm
    simp only [restartGame, List.mem_map] at hrm
    obtain ⟨a, _, rfl⟩ := hrm
    rfl
  · intro p sc r rest h1 h2
    unfold checkRingsAux
    rw [if_pos ⟨h1, h2⟩]
    by_cases hd : ringDistance p r < innerRadius
    · rw [if_pos hd]
      exact ⟨_, rfl⟩
    · rw [if_neg hd]
      by_cases hc : innerRadius ≤ ringDistance p r ∧ ringDistance p r ≤ outerRadius
      · rw [if_pos hc]
        exact ⟨_, rfl⟩
      · rw [if_neg hc]
        exact ⟨_, rfl⟩

/-- Witness for C6_checked_once: a concrete unchecked, crossed ring is
marked checked in place. -/
theorem C6_checked_once_witness :
    sampleRing.checked = false ∧ sampleCraft.z < sampleRing.z ∧
    ∃ rest2, (checkRingsAux sampleCraft 0 [sampleRing]).1 =
      { sampleRing with checked := true } :: rest2 :=
  ⟨rfl, by norm_num [sampleCraft, sampleRing],
    (C6_checked_once none initState).2.2 sampleCraft 0 sampleRing []
      rfl (by norm_num [sampleCraft, sampleRing])⟩

/-- C9: the score never decreases over a tick, does not change when the
state is not Running (in particular it is frozen from the instant the
state is Crashed, under every operation other than restart), and only
restart writes 0; while running, a crash-free pass of the ring loop adds
exactly one point per Scored ring. -/
theorem C9_score_monotone (axis : Option ℝ) (i : ℕ) (s : State)
    (p : Craft) (sc : ℕ) (rs : List Ring) :
    s.score ≤ (animate axis s).score ∧
    (¬ isRunning s → (animate axis s).score = s.score) ∧
    (isCrashed s →
      (animate axis s).score = s.score ∧
      (startGame axis s).score = s.score ∧
      (gamepadConnected i axis s).score = s.score ∧
      (keydownStart axis s).score = s.score) ∧
    (gamepadDisconnected s).score = s.score ∧
    (restartGame s).score = 0 ∧
    ((checkRingsAux p sc rs).2.2 = false →
      (checkRingsAux p sc rs).2.1 = sc + scoredCount p rs) := by
  refine ⟨?_, ?_, ?_, rfl, rfl, checkRingsAux_score_of_noCrash p sc rs⟩
  · by_cases hr : isRunning s
    · rw [animate_running_score axis s hr]
      exact checkRingsAux_score_mono _ _ _
    · rw [animate_of_not_running axis s hr]
  · intro hr
    rw [animate_of_not_running axis s hr]
  · intro hc
    have hnr : ¬ isRunning s := fun h => Bool.noConfusion (hc.symm.trans h.2)
    refine ⟨by rw [animate_of_not_running axis s hnr], ?_, ?_, ?_⟩
    · unfold startGame
      split
      · have hnr2 : ¬ isRunning { s with gameStarted := true } :=
          fun h => Bool.noConfusion (hc.symm.trans h.2)
        rw [animate_of_not_running axis _ hnr2]
      · rfl
    · simp only [gamepadConnected]
      rw [if_neg fun hand => Bool.noConfusion (hc.symm.trans hand.2)]
    · unfold keydownStart
      rw [if_neg fun hand => Bool.noConfusion (hc.symm.trans hand.2)]

/-- Witness for C9_score_monotone at a concrete crashed state and an
empty ring list. -/
theorem C9_score_monotone_witness :
    isCrashed crashedRunState ∧
    (animate none crashedRunState).score = crashedRunState.score ∧
    (startGame none crashedRunState).score = crashedRunState.score ∧
    (checkRingsAux sampleCraft 0 []).2.2 = false ∧
    (checkRingsAux sampleCraft 0 []).2.1 = 0 + scoredCount sampleCraft [] :=
  ⟨rfl,
    ((C9_score_monotone none 0 crashedRunState sampleCraft 0 []).2.2.1 rfl).1,
    ((C9_score_monotone none 0 crashedRunState sampleCraft 0 []).2.2.1 rfl).2.1,
    rfl,
    (C9_score_monotone none 0 crashedRunState sampleCraft 0 []).2.2.2.2.2 rfl⟩

lemma checkRingsAux_cons_skip (p : Craft) (sc : ℕ) (r : Ring) (rest : List Ring)
    (hb : ¬ (r.checked = false ∧ p.z < r.z)) :
    checkRingsAux p sc (r :: rest) =
      (r :: (checkRingsAux p sc rest).1, (checkRingsAux p sc rest).2) := by
  simp only [checkRingsAux]
  rw [if_neg hb]

lemma checkRingsAux_cons_scored (p : Craft) (sc : ℕ) (r : Ring) (rest : List Ring)
    (hb : r.checked = false ∧ p.z < r.z) (hd : ringDistance p r < innerRadius) :
    checkRingsAux p sc (r :: rest) =
      ({ r with checked := true } :: (checkRingsAux p (sc + 1) rest).1,
        (checkRingsAux p (sc + 1) rest).2) := by
  simp only [checkRingsAux]
  rw [if_pos hb]
  rw [if_pos hd]

lemma checkRingsAux_cons_crashed (p : Craft) (sc : ℕ) (r : Ring) (rest : List Ring)
    (hb : r.checked = false ∧ p.z < r.z) (hd : ¬ ringDistance p r < innerRadius)
    (hcc : innerRadius ≤ ringDistance p r ∧ ringDistance p r ≤ outerRadius) :
    checkRingsAux p sc (r :: rest) = ({ r with checked := true } :: rest, sc, true) := by
  simp only [checkRingsAux]
  rw [if_pos hb]
  rw [if_neg hd, if_pos hcc]

lemma checkRingsAux_cons_missed (p : Craft) (sc : ℕ) (r : Ring) (rest : List Ring)
    (hb : r.checked = false ∧ p.z < r.z) (hd : ¬ ringDistance p r < innerRadius)
    (hcc : ¬ (innerRadius ≤ ringDistance p r ∧ ringDistance p r ≤ outerRadius)) :
    checkRingsAux p sc (r :: rest) =
      ({ r with checked := true } :: (checkRingsAux p sc rest).1,
        (checkRingsAux p sc rest).2) := by
  simp only [checkRingsAux]
  rw [if_pos hb]
  rw [if_neg hd, if_neg hcc]

/-- The step the loop takes on an eligible ring is exactly dictated by
the classification `ringOutcome` of that ring. -/
lemma checkRingsAux_cons_eq_outcome (p : Craft) (sc : ℕ) (r : Ring) (rest : List Ring)
    (hb : r.checked = false ∧ p.z < r.z) :
    checkRingsAux p sc (r :: rest) =
      (match ringOutcome p r with
      | .Scored => ({ r with checked := true } :: (checkRingsAux p (sc + 1) rest).1,
          (checkRingsAux p (sc + 1) rest).2)
      | .Crashed => ({ r with checked := true } :: rest, sc, true)
      | .Missed => ({ r with checked := true } :: (checkRingsAux p sc rest).1,
          (checkRingsAux p sc rest).2)) := by
  unfold ringOutcome
  by_cases hd : ringDistance p r < innerRadius
  · rw [checkRingsAux_cons_scored p sc r rest hb hd]
    simp only [if_pos hd]
  · by_cases hcc : innerRadius ≤ ringDistance p r ∧ ringDistance p r ≤ outerRadius
    · rw [checkRingsAux_cons_crashed p sc r rest hb hd hcc]
      simp only [if_neg hd, if_pos hcc]
    · rw [checkRingsAux_cons_missed p sc r rest hb hd hcc]
      simp only [if_neg hd, if_neg hcc]

lemma checkRingsAux_all_processed (p : Craft) (sc : ℕ) (rs : List Ring)
    (hf : (checkRingsAux p sc rs).2.2 = false) :
    ∀ i r0, rs.get? i = some r0 → r0.checked = false → p.z < r0.z →
      ∃ r1, (checkRingsAux p sc rs).1.get? i = some r1 ∧ r1.checked = true := by
  induction rs generalizing sc with
  | nil =>
    intro i r0 hg
    exact Option.noConfusion hg
  | cons r rest ih =>
    intro i r0 hg hc hz
    by_cases hb : r.checked = false ∧ p.z < r.z
    · by_cases hd : ringDistance p r < innerRadius
      · rw [checkRingsAux_cons_scored p sc r rest hb hd] at hf ⊢
        dsimp only at hf ⊢
        cases i with
        | zero => exact ⟨{ r with checked := true }, rfl, rfl⟩
        | succ n =>
          rw [List.get?_cons_succ] at hg ⊢
          exact ih (sc + 1) hf n r0 hg hc hz
      · by_cases hcc : innerRadius ≤ ringDistance p r ∧ ringDistance p r ≤ outerRadius
        · rw [checkRingsAux_cons_crashed p sc r rest hb hd hcc] at hf
          exact Bool.noConfusion hf
        · rw [checkRingsAux_cons_missed p sc r rest hb hd hcc] at hf ⊢
          dsimp only at hf ⊢
          cases i with
          | zero => exact ⟨{ r with checked := true }, rfl, rfl⟩
          | succ n =>
            rw [List.get?_cons_succ] at hg ⊢
            exact ih sc hf n r0 hg hc hz
    · rw [checkRingsAux_cons_skip p sc r rest hb] at hf ⊢
      dsimp only at hf ⊢
      cases i with
      | zero =>
        rw [List.get?_cons_zero] at hg
        injection hg with he
        subst he
        exact absurd ⟨hc, hz⟩ hb
      | succ n =>
        rw [List.get?_cons_succ] at hg ⊢
        exact ih sc hf n r0 hg hc hz

lemma checkRingsAux_crash_found (p : Craft) (sc : ℕ) (rs : List Ring)
    (hf : (checkRingsAux p sc rs).2.2 = true) :
    ∃ k r0, rs.get? k = some r0 ∧ r0.checked = false ∧ p.z < r0.z ∧
      innerRadius ≤ ringDistance p r0 ∧ ringDistance p r0 ≤ outerRadius ∧
      (checkRingsAux p sc rs).1.drop (k + 1) = rs.drop (k + 1) := by
  induction rs generalizing sc with
  | nil => exact Bool.noConfusion hf
  | cons r rest ih =>
    by_cases hb : r.checked = false ∧ p.z < r.z
    · by_cases hd : ringDistance p r < innerRadius
      · rw [checkRingsAux_cons_scored p sc r rest hb hd] at hf ⊢
        dsimp only at hf ⊢
        obtain ⟨k, r0, hg, hc, hz, hlo, hhi, hdrop⟩ := ih (sc + 1) hf
        refine ⟨k + 1, r0, ?_, hc, hz, hlo, hhi, ?_⟩
        · rw [List.get?_cons_succ]
          exact hg
        · rw [List.drop_succ_cons, List.drop_succ_cons]
          exact hdrop
      · by_cases hcc : innerRadius ≤ ringDistance p r ∧ ringDistance p r ≤ outerRadius
        · rw [checkRingsAux_cons_crashed p sc r rest hb hd hcc]
          dsimp only
          exact ⟨0, r, rfl, hb.1, hb.2, hcc.1, hcc.2, by
            rw [List.drop_succ_cons, List.drop_succ_cons]⟩
        · rw [checkRingsAux_cons_missed p sc r rest hb hd hcc] at hf ⊢
          dsimp only at hf ⊢
          obtain ⟨k, r0, hg, hc, hz, hlo, hhi, hdrop⟩ := ih sc hf
          refine ⟨k + 1, r0, ?_, hc, hz, hlo, hhi, ?_⟩
          · rw [List.get?_cons_succ]
            exact hg
          · rw [List.drop_succ_cons, List.drop_succ_cons]
            exact hdrop
    · rw [checkRingsAux_cons_skip p sc r rest hb] at hf ⊢
      dsimp only at hf ⊢
      obtain ⟨k, r0, hg, hc, hz, hlo, hhi, hdrop⟩ := ih sc hf
      refine ⟨k + 1, r0, ?_, hc, hz, hlo, hhi, ?_⟩
      · rw [List.get?_cons_succ]
        exact hg
      · rw [List.drop_succ_cons, List.drop_succ_cons]
        exact hdrop

/-- C8: within one pass of the ring loop every unchecked ring whose
plane the craft has crossed is evaluated (in index order), unless some
ring crashes, in which case processing stops at that ring and the list
beyond it is left exactly as it was. -/
theorem C8_rings_processed_in_order (p : Craft) (sc : ℕ) (rs : List Ring) :
    ((checkRingsAux p sc rs).2.2 = false →
      ∀ i r0, rs.get? i = some r0 → r0.checked = false → p.z < r0.z →
        ∃ r1, (checkRingsAux p sc rs).1.get? i = some r1 ∧ r1.checked = true) ∧
    ((checkRingsAux p sc rs).2.2 = true →
      ∃ k r0, rs.get? k = some r0 ∧ r0.checked = false ∧ p.z < r0.z ∧
        innerRadius ≤ ringDistance p r0 ∧ ringDistance p r0 ≤ outerRadius ∧
        (checkRingsAux p sc rs).1.drop (k + 1) = rs.drop (k + 1)) :=
  ⟨fun hf => checkRingsAux_all_processed p sc rs hf,
    fun hf => checkRingsAux_crash_found p sc rs hf⟩

lemma ringDistance_sample1 : ringDistance sampleCraft sampleRing = 0 := by
  unfold ringDistance sampleCraft sampleRing
  norm_num [Real.sqrt_zero]

lemma sqrt_thirtysix : Real.sqrt 36 = 6 := by
  rw [show (36 : ℝ) = 6 * 6 by norm_num]
  exact Real.sqrt_mul_self (by norm_num)

lemma ringDistance_sample2 : ringDistance sampleCraft sampleRing2 = 6 := by
  unfold ringDistance sampleCraft sampleRing2
  norm_num [sqrt_thirtysix]

lemma checkRingsAux_sample_flag :
    (checkRingsAux sampleCraft 0 [sampleRing, sampleRing2]).2.2 = false := by
  rw [checkRingsAux_cons_scored sampleCraft 0 sampleRing [sampleRing2]
    ⟨rfl, by norm_num [sampleCraft, sampleRing]⟩
    (by rw [ringDistance_sample1]; unfold innerRadius ringMajorRadius ringTubeRadius; norm_num)]
  dsimp only
  rw [checkRingsAux_cons_scored sampleCraft 1 sampleRing2 []
    ⟨rfl, by norm_num [sampleCraft, sampleRing2]⟩
    (by rw [ringDistance_sample2]; unfold innerRadius ringMajorRadius ringTubeRadius; norm_num)]
  rfl

/-- Witness for C8_rings_processed_in_order: one pass over two crossed
rings scores both and in particular evaluates the second one. -/
theorem C8_rings_processed_in_order_witness :
    (checkRingsAux sampleCraft 0 [sampleRing, sampleRing2]).2.2 = false ∧
    ∃ r1, (checkRingsAux sampleCraft 0 [sampleRing, sampleRing2]).1.get? 1 = some r1 ∧
      r1.checked = true :=
  ⟨checkRingsAux_sample_flag,
    (C8_rings_processed_in_order sampleCraft 0 [sampleRing, sampleRing2]).1
      checkRingsAux_sample_flag 1 sampleRing2 rfl rfl
      (by norm_num [sampleCraft, sampleRing2])⟩

/-- C10: in every reachable state the craft's lateral coordinate is 0
and every ring's centre has x = 0, so the planar distance used by the
collision judge equals the absolute vertical difference. -/
theorem C10_lateral_zero (s : State) (h : Reachable s) :
    s.plane.x = 0 ∧ (∀ r ∈ s.rings, r.x = 0) ∧
    ∀ r ∈ s.rings, ringDistance s.plane r = |s.plane.y - r.y| := by
  obtain ⟨h1, h2⟩ := reachable_zeroX h
  exact ⟨h1, h2, fun r hr => ringDistance_of_zeroX h1 (h2 r hr)⟩

/-- Witness for C10_lateral_zero at the initial state. -/
theorem C10_lateral_zero_witness :
    initState.plane.x = 0 ∧ (∀ r ∈ initState.rings, r.x = 0) ∧
    ∀ r ∈ initState.rings,
      ringDistance initState.plane r = |initState.plane.y - r.y| :=
  C10_lateral_zero initState Reachable.init

end FlightSim
